import Mathlib

set_option maxRecDepth 20000

/-!
Shallow embedding of the bytecode compiler and stack-based virtual machine
of the interpreted-language toolchain (src/compiler/mod.rs, src/vm/mod.rs,
src/vm/stack.rs, src/vm/scope.rs, src/vm/pool.rs).

Modelling conventions:
* Rust `i32` payloads are carried as `Int`, but the arithmetic on them is
  `i32` arithmetic: `+`/`-`/`*` panic outside the `i32` range (the checked
  semantics of the debug profile, cargo's default; release would wrap), and
  `/` panics on a zero divisor and on `i32::MIN / -1` — the two division
  checks rustc emits in every profile.  Theorems that assert an `ok` result
  of an `Int` operation carry the corresponding in-range condition.  `usize`
  is `Nat`; the one `as usize` cast of a possibly-negative `i32` (the popped
  argument count in `CallFunction`) is modelled with the 64-bit wrap-around
  it has in Rust.
* Rust `f64` is modelled as the exact rationals `Rat`: every claim proved
  about floats concerns only which `Value` constructor results and how the
  `Int` operand is widened, never IEEE rounding.
* Rust panics (array indexing out of bounds, integer division by zero) are
  modelled by the `Outcome.panic` constructor, distinct from the `Error`
  values the interpreter returns; `Outcome.timeout` is the fuel-exhaustion
  artefact of the embedding and corresponds to a non-terminating execution.
* `Rc<Value>` sharing is invisible to the functional behaviour of the VM
  (values are never mutated), so values are copied; the reference-counting
  garbage collector of pool.rs, whose effect does depend on the counts, is
  modelled separately by `GCState`/`gcSweep` below, and in the main machine
  the pool is kept as the append-only allocation log (a sweep never changes
  the stack, the scopes or any value reachable from them, in the Rust code
  as in the model, so every other instruction behaves identically).
-/

/-- Runtime values, from `enum Value` in vm/mod.rs. -/
inductive Value where
  | Null : Value
  | Int (i : Int) : Value
  | Float (f : Rat) : Value
  | String (s : String) : Value
  | Variable (identifier : String) : Value
  | Function (position : Nat) : Value
deriving DecidableEq

/-- Bytecode opcodes with inline operands, the `enum Code` used by
compiler/mod.rs and vm/mod.rs. -/
inductive Code where
  | Null : Code
  | Add : Code
  | Subtract : Code
  | Multiply : Code
  | Divide : Code
  | Assign : Code
  | Pop : Code
  | Return : Code
  | PushNull : Code
  | PushNum (i : Int) : Code
  | PushFloat (f : Rat) : Code
  | PushString (s : String) : Code
  | PushVar (identifier : String) : Code
  | PushList (n : Int) : Code
  | PushFunction (pars : List String) (body_len : Nat) : Code
  | CallFunction (args_len : Nat) : Code
deriving DecidableEq

/-- A bytecode instruction: opcode plus originating source span. -/
structure Instruction where
  offset : Nat
  width : Nat
  code : Code
deriving DecidableEq

/-- Error kinds of the VM, from `enum VMErrorType` in error/mod.rs. -/
inductive VMErrorType where
  | NotImplemented : VMErrorType
  | InvalidCast : VMErrorType
  | InvalidFunctionValue : VMErrorType
  | InvalidArgumentCountType : VMErrorType
  | StackElementUninitialized : VMErrorType
  | OperationNotSupported : VMErrorType
  | AssignToNonVariable : VMErrorType
  | MismatchedArgumentCount : VMErrorType
  | StackOverflow (stack_size : Nat) (index : Int) : VMErrorType
deriving DecidableEq

/-- Error kinds of the compiler, from `enum CompilerErrorType`. -/
inductive CompilerErrorType where
  | NotImplemented : CompilerErrorType
deriving DecidableEq

/-- The error envelope kinds relevant to the core (error/mod.rs). -/
inductive ErrorType where
  | CompilerError (e : CompilerErrorType) : ErrorType
  | VMError (e : VMErrorType) : ErrorType
deriving DecidableEq

/-- The error envelope `struct Error` (code/file/help fields, which only
affect pretty printing, are omitted; `description` is kept because several
claims talk about it). -/
structure Error where
  offset : Nat
  width : Nat
  error_type : ErrorType
  description : Option String := none
deriving DecidableEq

/-- Builder for `Error::new`. -/
def Error.new (offset width : Nat) (error_type : ErrorType) : Error :=
  { offset := offset, width := width, error_type := error_type }

/-- Builder for `Error::with_description`. -/
def Error.with_description (e : Error) (d : String) : Error :=
  { e with description := some d }

/-- Rendering of a `Value` after Rust's derived `Debug` (brace characters
written with escapes; the float case prints the exact rational, the one
place the rendering is approximate). -/
def debugValue : Value → String
  | .Null => "Null"
  | .Int i => "Int(" ++ toString i ++ ")"
  | .Float f => "Float(" ++ toString f ++ ")"
  | .String s => "String(\"" ++ s ++ "\")"
  | .Variable id => "Variable \x7b identifier: \"" ++ id ++ "\" \x7d"
  | .Function p => "Function \x7b position: " ++ toString p ++ " \x7d"

/-- Rendering of a parameter list after Rust's `Debug` for `Vec<String>`. -/
def parsDebugStr (pars : List String) : String :=
  "[" ++ String.intercalate ", " (pars.map (fun p => "\"" ++ p ++ "\"")) ++ "]"

/-- Rendering of a `Code` after Rust's derived `Debug`. -/
def debugCode : Code → String
  | .Null => "Null"
  | .Add => "Add"
  | .Subtract => "Subtract"
  | .Multiply => "Multiply"
  | .Divide => "Divide"
  | .Assign => "Assign"
  | .Pop => "Pop"
  | .Return => "Return"
  | .PushNull => "PushNull"
  | .PushNum i => "PushNum(" ++ toString i ++ ")"
  | .PushFloat f => "PushFloat(" ++ toString f ++ ")"
  | .PushString s => "PushString(\"" ++ s ++ "\")"
  | .PushVar id => "PushVar(\"" ++ id ++ "\")"
  | .PushList n => "PushList(" ++ toString n ++ ")"
  | .PushFunction pars body_len =>
      "PushFunction \x7b pars: " ++ parsDebugStr pars ++ ", body_len: "
        ++ toString body_len ++ " \x7d"
  | .CallFunction args_len =>
      "CallFunction \x7b args_len: " ++ toString args_len ++ " \x7d"

/-- Outcome of a fallible interpreter computation: `ok`/`err` are Rust's
`Result`, `panic` a Rust panic, `timeout` fuel exhaustion of the embedding. -/
inductive Outcome (α : Type) where
  | ok (a : α) : Outcome α
  | err (e : Error) : Outcome α
  | panic (msg : String) : Outcome α
  | timeout : Outcome α
deriving DecidableEq

def Outcome.bind : Outcome α → (α → Outcome β) → Outcome β
  | .ok a, f => f a
  | .err e, _ => .err e
  | .panic m, _ => .panic m
  | .timeout, _ => .timeout

instance : Monad Outcome where
  pure := Outcome.ok
  bind := Outcome.bind

/-- True exactly on the `ok` constructor. -/
def Outcome.isOk : Outcome α → Bool
  | .ok _ => true
  | _ => false

/-- The fixed stack capacity, `const STACK_SIZE: usize = 512`. -/
def STACK_SIZE : Nat := 512

/-- Instruction-count threshold for triggering the garbage collector,
`const GC_INSTRUCTION_COUNT: usize = 50`. -/
def GC_INSTRUCTION_COUNT : Nat := 50

/-- The operand stack of vm/stack.rs: `stacki` is a signed index of the
last occupied slot (0 means empty — slot 0 itself is never written), and
`stack` a vector of `STACK_SIZE` optional value slots. -/
structure Stack where
  stacki : Int
  stack : List (Option Value)
deriving DecidableEq

/-- `Stack::new`: index 0 and 512 empty slots. -/
def Stack.new : Stack :=
  { stacki := 0, stack := List.replicate STACK_SIZE none }

/-- `Stack::check_range`: fails with `StackOverflow` when `stacki + diff`
leaves `[0, STACK_SIZE)`. -/
def Stack.check_range (s : Stack) (instruction : Instruction) (index_diff : Int) :
    Outcome Unit :=
  let index := s.stacki + index_diff
  if index < 0 ∨ (STACK_SIZE : Int) ≤ index then
    .err ((Error.new instruction.offset instruction.width
      (.VMError (.StackOverflow STACK_SIZE index))).with_description
      ("Stack overflow during operation [" ++ debugCode instruction.code ++ "]"))
  else
    .ok ()

/-- `Stack::push`: range-check `stacki + 1`, then increment and write the
slot at the new index. -/
def Stack.push (s : Stack) (instruction : Instruction) (val : Value) :
    Outcome Stack :=
  (s.check_range instruction 1).bind fun _ =>
    .ok { stacki := s.stacki + 1,
          stack := s.stack.set (s.stacki + 1).toNat (some val) }

/-- `Stack::pop`: range-check `stacki - 1`, decrement, and read the slot at
the old index (which is left in place — popping does not clear the slot);
an empty slot is `StackElementUninitialized`, and reading past the backing
vector would be a Rust index panic. -/
def Stack.pop (s : Stack) (instruction : Instruction) :
    Outcome (Value × Stack) :=
  (s.check_range instruction (-1)).bind fun _ =>
    match s.stack.get? s.stacki.toNat with
    | some (some v) => .ok (v, { s with stacki := s.stacki - 1 })
    | some none => .err (Error.new instruction.offset instruction.width
        (.VMError .StackElementUninitialized))
    | none => .panic "index out of bounds"


/-- Variable maps of a scope: Rust's `HashMap<String, Rc<Value>>`, modelled
as an association list with unique keys (`varsInsert` replaces in place). -/
def varsGet : List (String × Value) → String → Option Value
  | [], _ => none
  | (k', v') :: rest, k => if k' = k then some v' else varsGet rest k

/-- `HashMap::insert`: overwrite the binding if the key exists, else add. -/
def varsInsert : List (String × Value) → String → Value → List (String × Value)
  | [], k, v => [(k, v)]
  | (k', v') :: rest, k, v =>
      if k' = k then (k, v) :: rest else (k', v') :: varsInsert rest k v

/-- The scope chain of vm/scope.rs. `initial` is the rootless root scope
(`Scope::initial`), `child` a scope with a parent link (`Scope::new`). The
shared `pool`/`stack` handles of the Rust struct live in `MachineState`
below (they are the same objects for every scope of one VM). Representing
the parent by value is sound because `set_variable` only ever writes the
innermost map: no operation mutates an ancestor scope while it is shared. -/
inductive ScopeT where
  | initial (vars : List (String × Value)) : ScopeT
  | child (vars : List (String × Value)) (parent : ScopeT) : ScopeT
deriving DecidableEq

/-- `Scope::get_variable`: local map first, then recurse to the parent. -/
def ScopeT.get_variable : ScopeT → String → Option Value
  | .initial vars, id => varsGet vars id
  | .child vars parent, id =>
      match varsGet vars id with
      | some v => some v
      | none => parent.get_variable id

/-- `Scope::set_variable`: always insert into the current scope's own map. -/
def ScopeT.set_variable : ScopeT → String → Value → ScopeT
  | .initial vars, id, v => .initial (varsInsert vars id v)
  | .child vars parent, id, v => .child (varsInsert vars id v) parent

/-- The parent link of a scope, for stating that it is never touched. -/
def ScopeT.parentScope : ScopeT → Option ScopeT
  | .initial _ => none
  | .child _ parent => some parent

/-- The current scope's own variable map. -/
def ScopeT.ownVars : ScopeT → List (String × Value)
  | .initial vars => vars
  | .child vars _ => vars

/-- The shared mutable machine state: the one operand `Stack`, the `Pool`
(kept as the append-only allocation log, see the header) and the shared
instruction counter of the VM instances. -/
structure MachineState where
  stack : Stack
  pool : List Value
  icount : Nat
deriving DecidableEq

/-- Fresh machine state of `VM::new`. -/
def MachineState.fresh : MachineState :=
  { stack := Stack.new, pool := [], icount := 0 }

/-- `Pool::create`: allocate the value in the pool and hand it back. -/
def MachineState.create (st : MachineState) (val : Value) :
    MachineState × Value :=
  ({ st with pool := st.pool ++ [val] }, val)

/-- `VMInstance::get_variable`: resolve a `Variable` placeholder through
the scope chain, coercing a missing binding to `Null`; any other value is
returned unchanged.  (In the Rust code this returns `Result` but never an
error.) -/
def resolveValue (scope : ScopeT) (val : Value) : Value :=
  match val with
  | .Variable identifier => (scope.get_variable identifier).getD .Null
  | _ => val

/-- Post-instruction bookkeeping of the `do_exec` loop: increment the
shared instruction counter and, past `GC_INSTRUCTION_COUNT`, run the
collector and reset it (the sweep itself only drops pool-only references,
which the allocation-log pool does not track — see the header). -/
def gcTick (st : MachineState) : MachineState :=
  let ic := st.icount + 1
  if GC_INSTRUCTION_COUNT < ic then { st with icount := 0 }
  else { st with icount := ic }

/-- `VMInstance::assign`: pop RHS then LHS; the LHS must still be an
unresolved `Variable` placeholder; the resolved RHS is bound in the
current scope and the original LHS placeholder is pushed back. -/
def assignOp (scope : ScopeT) (st : MachineState) (instruction : Instruction) :
    Outcome (ScopeT × MachineState) :=
  (st.stack.pop instruction).bind fun (stack_second, s1) =>
  (s1.pop instruction).bind fun (stack_first, s2) =>
  match stack_first with
  | .Variable identifier =>
      let second := resolveValue scope stack_second
      let scope' := scope.set_variable identifier second
      (s2.push instruction stack_first).bind fun s3 =>
      .ok (scope', { st with stack := s3 })
  | _ => .err ((Error.new instruction.offset instruction.width
      (.VMError .AssignToNonVariable)).with_description
      ("cannot assign to [" ++ debugValue stack_first ++ "]"))

/-- The `operation_not_supported` error builder of vm/mod.rs. -/
def operationNotSupported (instruction : Instruction) (first second : Value) :
    Error :=
  (Error.new instruction.offset instruction.width
    (.VMError .OperationNotSupported)).with_description
    ("Operation [" ++ debugCode instruction.code
      ++ "] not supported for operands of type [" ++ debugValue first
      ++ "] and [" ++ debugValue second ++ "]")

/-- `i32::MIN`, the lower bound of the `i32` payloads of `Value::Int`. -/
def I32_MIN : Int := -(2 ^ 31)

/-- `i32::MAX`, the upper bound of the `i32` payloads of `Value::Int`. -/
def I32_MAX : Int := 2 ^ 31 - 1

/-- Checked `i32` arithmetic as the debug profile (cargo's default)
compiles `+`, `-` and `*`: a result outside the `i32` range is a panic
with the given message, otherwise the exact result.  (The release profile
would wrap instead; the divide checks below are profile-independent.) -/
def checkedI32 (msg : String) (z : Int) : Outcome Value :=
  if z < I32_MIN ∨ I32_MAX < z then .panic msg else .ok (.Int z)

/-- The arithmetic dispatch of `VMInstance::compute_two_operands` on the
two already-resolved operands: Int and Int combine with `i32` arithmetic
(overflow on `+`/`-`/`*` panics per `checkedI32`; `/` truncates toward
zero and panics on a zero divisor and on the overflowing pair
`i32::MIN / -1`, the two checks rustc always emits), a mixed Int and
Float widens the Int operand (`f64::from`) and combines to Float, Float
and Float combine to Float, and every other pairing is
`OperationNotSupported`. -/
def computeValues (instruction : Instruction) (stack_first stack_second : Value) :
    Outcome Value :=
  match stack_first, stack_second with
  | .Int first, .Int second =>
      match instruction.code with
      | .Add => checkedI32 "attempt to add with overflow" (first + second)
      | .Subtract => checkedI32 "attempt to subtract with overflow" (first - second)
      | .Multiply => checkedI32 "attempt to multiply with overflow" (first * second)
      | .Divide =>
          if second = 0 then .panic "attempt to divide by zero"
          else if first = I32_MIN ∧ second = -1 then
            .panic "attempt to divide with overflow"
          else .ok (.Int (Int.tdiv first second))
      | _ => .err (operationNotSupported instruction stack_first stack_second)
  | .Float first, .Float second =>
      match instruction.code with
      | .Add => .ok (.Float (first + second))
      | .Subtract => .ok (.Float (first - second))
      | .Multiply => .ok (.Float (first * second))
      | .Divide => .ok (.Float (first / second))
      | _ => .err (operationNotSupported instruction stack_first stack_second)
  | .Int firstI, .Float second =>
      let first : Rat := (firstI : Rat)
      match instruction.code with
      | .Add => .ok (.Float (first + second))
      | .Subtract => .ok (.Float (first - second))
      | .Multiply => .ok (.Float (first * second))
      | .Divide => .ok (.Float (first / second))
      | _ => .err (operationNotSupported instruction stack_first stack_second)
  | .Float first, .Int secondI =>
      let second : Rat := (secondI : Rat)
      match instruction.code with
      | .Add => .ok (.Float (first + second))
      | .Subtract => .ok (.Float (first - second))
      | .Multiply => .ok (.Float (first * second))
      | .Divide => .ok (.Float (first / second))
      | _ => .err (operationNotSupported instruction stack_first stack_second)
  | _, _ => .err (operationNotSupported instruction stack_first stack_second)

/-- `VMInstance::compute_two_operands`: pop two operands (top first),
resolve each through the scope, combine with `computeValues`, allocate the
result in the pool and push it. -/
def computeTwoOperands (scope : ScopeT) (st : MachineState)
    (instruction : Instruction) : Outcome MachineState :=
  (st.stack.pop instruction).bind fun (pop_second, s1) =>
  (s1.pop instruction).bind fun (pop_first, s2) =>
  let stack_second := resolveValue scope pop_second
  let stack_first := resolveValue scope pop_first
  (computeValues instruction stack_first stack_second).bind fun v =>
  let (st', val) := MachineState.create { st with stack := s2 } v
  (st'.stack.push instruction val).bind fun s3 =>
  .ok { st' with stack := s3 }

/-- The `i as usize` cast of the popped argument count in the
`CallFunction` arm: a 64-bit wrap-around of a possibly-negative value. -/
def intToUsize (i : Int) : Nat := (i % (2 ^ 64 : Int)).toNat

/-- The argument-popping loop of the `CallFunction` arm: pop `n` values
off the (shared) stack, resolving each through the child instance's scope,
collected in pop order. -/
def popArgs (scope : ScopeT) (instruction : Instruction) :
    Nat → Stack → Outcome (List Value × Stack)
  | 0, s => .ok ([], s)
  | Nat.succ n, s =>
      (s.pop instruction).bind fun (var, s') =>
      (popArgs scope instruction n s').bind fun (args, s'') =>
      .ok (resolveValue scope var :: args, s'')

/-- The parameter-binding loop of the `CallFunction` arm: `pars[i]` is
bound to `args[pars.len() - 1 - i]` (the arguments were popped in reverse
stack order, so they are reversed back into declaration order), each
binding written into the child instance's scope. -/
def bindParams (scope : ScopeT) (pars : List String) (args : List Value) :
    ScopeT :=
  (pars.zip args.reverse).foldl (fun sc pa => sc.set_variable pa.1 pa.2) scope

/-- The `unimplemented` error builder of vm/mod.rs. -/
def vmUnimplemented (offset width : Nat) : Error :=
  Error.new offset width (.VMError .NotImplemented)

/-- The fallback arm of the dispatch: any opcode without an arm (here
`Null`, `PushNull` and `PushList`). -/
def notImplementedError (instruction : Instruction) : Error :=
  (vmUnimplemented instruction.offset instruction.width).with_description
    ("Operation not supported: [" ++ debugCode instruction.code ++ "]")

/-- `VMInstance::do_exec`: the dispatch loop, fuelled for termination.
`scope` is the executing instance's scope (threaded because `Assign`
mutates it), `st` the shared stack/pool/counter state, `index` the
instruction index. Returns the instance's scope and the shared state at
loop exit (`Return`, or the index running off the end of the program). -/
def doExec : Nat → List Instruction → ScopeT → MachineState → Nat →
    Outcome (ScopeT × MachineState)
  | 0, _, _, _, _ => .timeout
  | Nat.succ fuel, program, scope, st, index =>
    match program.get? index with
    | none => .ok (scope, st)
    | some instruction =>
      match instruction.code with
      | .PushNum i =>
          let (st1, val) := st.create (Value.Int i)
          (st1.stack.push instruction val).bind fun s2 =>
          doExec fuel program scope (gcTick { st1 with stack := s2 }) (index + 1)
      | .PushFloat f =>
          let (st1, val) := st.create (Value.Float f)
          (st1.stack.push instruction val).bind fun s2 =>
          doExec fuel program scope (gcTick { st1 with stack := s2 }) (index + 1)
      | .PushString s =>
          let (st1, val) := st.create (Value.String s)
          (st1.stack.push instruction val).bind fun s2 =>
          doExec fuel program scope (gcTick { st1 with stack := s2 }) (index + 1)
      | .Add | .Subtract | .Multiply | .Divide =>
          (computeTwoOperands scope st instruction).bind fun st' =>
          doExec fuel program scope (gcTick st') (index + 1)
      | .Assign =>
          (assignOp scope st instruction).bind fun (scope', st') =>
          doExec fuel program scope' (gcTick st') (index + 1)
      | .PushVar identifier =>
          let (st1, val) := st.create (Value.Variable identifier)
          (st1.stack.push instruction val).bind fun s2 =>
          doExec fuel program scope (gcTick { st1 with stack := s2 }) (index + 1)
      | .PushFunction _ body_len =>
          let (st1, val) := st.create (Value.Function index)
          (st1.stack.push instruction val).bind fun s2 =>
          doExec fuel program scope (gcTick { st1 with stack := s2 })
            (index + body_len + 1)
      | .CallFunction args_len =>
          -- the argument block is evaluated in a fresh child instance
          (doExec fuel program (ScopeT.child [] scope) st (index + 1)).bind
            fun (cs1, st1) =>
          (st1.stack.pop instruction).bind fun (cnt, s2) =>
          match cnt with
          | .Int i =>
              (popArgs cs1 instruction (intToUsize i) s2).bind fun (args, s3) =>
              (s3.pop instruction).bind fun (func, s4) =>
              let afterCall : Outcome MachineState :=
                match resolveValue scope func with
                | .Function position =>
                    match program.get? position with
                    | some pinstruction =>
                        match pinstruction.code with
                        | .PushFunction pars _ =>
                            if pars.length ≠ args.length then
                              .err (Error.new instruction.offset instruction.width
                                (.VMError .MismatchedArgumentCount))
                            else
                              (doExec fuel program (bindParams cs1 pars args)
                                { st1 with stack := s4 } (position + 1)).bind
                                  fun (cs3, st5) =>
                              match st5.stack.pop instruction with
                              | .ok (val, s6) =>
                                  (s6.push instruction (resolveValue cs3 val)).bind
                                    fun s7 =>
                                  .ok { st5 with stack := s7 }
                              | .err _ => .ok st5
                              | .panic m => .panic m
                              | .timeout => .timeout
                        | _ => .err (Error.new instruction.offset instruction.width
                            (.VMError .InvalidFunctionValue))
                    | none => .panic "index out of bounds"
                | _ => .err ((Error.new instruction.offset instruction.width
                    (.VMError .InvalidCast)).with_description
                    ("Value [" ++ debugValue func
                      ++ "] could not be cast to [Function] type"))
              afterCall.bind fun st6 =>
              doExec fuel program scope (gcTick st6) (index + args_len + 1)
          | _ => .err (Error.new instruction.offset instruction.width
              (.VMError .InvalidArgumentCountType))
      | .Pop =>
          (st.stack.pop instruction).bind fun (_, s') =>
          doExec fuel program scope (gcTick { st with stack := s' }) (index + 1)
      | .Return => .ok (scope, st)
      | .Null | .PushNull | .PushList _ =>
          .err (notImplementedError instruction)

/-- `VMInstance::exec`: run the dispatch loop, then pop and resolve the
top of stack and render it with the derived `Debug` (a pop failure is
swallowed and rendered as `Null`). -/
def execVM (fuel : Nat) (program : List Instruction) (scope : ScopeT)
    (st : MachineState) (start : Nat) : Outcome (String × ScopeT × MachineState) :=
  (doExec fuel program scope st start).bind fun (sc, st') =>
  match st'.stack.pop (Instruction.mk 0 0 .Null) with
  | .ok (v, s') => .ok (debugValue (resolveValue sc v), sc, { st' with stack := s' })
  | .err _ => .ok (debugValue Value.Null, sc, st')
  | .panic m => .panic m
  | .timeout => .timeout

/-- A whole-program run on a fresh VM: `VM::exec` builds the root scope
(`Scope::initial`) and the root instance (whose own scope is a child of
it), then runs from the supplied offset — here 0. -/
def vmRun (fuel : Nat) (program : List Instruction) :
    Outcome (String × ScopeT × MachineState) :=
  execVM fuel program (ScopeT.child [] (ScopeT.initial [])) MachineState.fresh 0

/-- The rendered result string of a whole-program run. -/
def vmRunStr (fuel : Nat) (program : List Instruction) : Outcome String :=
  (vmRun fuel program).bind fun r => .ok r.1


/-- Literal payloads of the parser (`enum Literal` of the lexer). -/
inductive LiteralV where
  | Null : LiteralV
  | Int (i : Int) : LiteralV
  | Float (f : Rat) : LiteralV
  | String (s : String) : LiteralV
deriving DecidableEq

/-- The operator tokens the compiler inspects.  The lexer's many remaining
variants behave identically in the compiler (they all reach the
unimplemented-operator arm), so they are collapsed into `OtherToken`. -/
inductive Token where
  | Plus : Token
  | Minus : Token
  | FSlash : Token
  | Asterix : Token
  | Equals : Token
  | OtherToken (name : String) : Token
deriving DecidableEq

/-- Rendering of a `Token` after Rust's derived `Debug`. -/
def debugToken : Token → String
  | .Plus => "Plus"
  | .Minus => "Minus"
  | .FSlash => "FSlash"
  | .Asterix => "Asterix"
  | .Equals => "Equals"
  | .OtherToken name => name

mutual

/-- Parser expressions (`struct Expression`): source span plus variant. -/
inductive Expression where
  | mk (offset width : Nat) (expression_type : ExpressionType) : Expression

/-- `enum ExpressionType`; the two `Primary` cases (`Literal` and
`Identifier`) are flattened into this enum. -/
inductive ExpressionType where
  | Empty : ExpressionType
  | Literal (l : LiteralV) : ExpressionType
  | Identifier (name : String) : ExpressionType
  | ListE (items : List Expression) : ExpressionType
  | Binary (left right : Expression) (operator : Token)
      (offset width : Nat) : ExpressionType
  | Function (pars : List String) (body : List Declaration) : ExpressionType
  | FunctionCall (func : Expression) (args : List Expression) : ExpressionType

/-- `struct Statement` (its only `statement_type` variant is an
expression); `stmtEnd` is the `end` flag (statement ended in `;`). -/
inductive Statement where
  | mk (offset width : Nat) (stmtEnd : Bool) (expr : Expression) : Statement

/-- `struct Declaration` (its only variant wraps a statement). -/
inductive Declaration where
  | mk (s : Statement) : Declaration

end

/-- The compiler's `unimplemented` error builder. -/
def compilerUnimplemented (offset width : Nat) : Error :=
  Error.new offset width (.CompilerError .NotImplemented)

/-- Operator-token to opcode mapping of the `Binary` arm. -/
def operatorCode : Token → Option Code
  | .Plus => some .Add
  | .Minus => some .Subtract
  | .FSlash => some .Divide
  | .Asterix => some .Multiply
  | .Equals => some .Assign
  | _ => none

mutual

/-- `Compiler::declaration`. -/
def compileDeclaration : Declaration → Outcome (List Instruction)
  | .mk s => compileStatement s

/-- `Compiler::statement`: compile the expression, then append a `Pop`
when the statement was terminated. -/
def compileStatement : Statement → Outcome (List Instruction)
  | .mk offset width stmtEnd e =>
      (compileExpression e).bind fun stmt =>
      .ok (if stmtEnd then stmt ++ [Instruction.mk offset width .Pop] else stmt)

/-- `Compiler::expression`. -/
def compileExpression : Expression → Outcome (List Instruction)
  | .mk offset width ty =>
      match ty with
      | .Empty => .ok []
      | .Literal l =>
          .ok [Instruction.mk offset width (match l with
            | .Null => .PushNull
            | .Int i => .PushNum i
            | .Float f => .PushFloat f
            | .String s => .PushString s)]
      | .Identifier name => .ok [Instruction.mk offset width (.PushVar name)]
      | .Binary left right operator boffset bwidth =>
          match operatorCode operator with
          | none => .err ((compilerUnimplemented boffset bwidth).with_description
              ("unimplemented operator " ++ debugToken operator))
          | some code =>
              (compileExpression left).bind fun l =>
              (compileExpression right).bind fun r =>
              .ok (l ++ r ++ [Instruction.mk boffset bwidth code])
      | .Function pars body =>
          (compileAST body).bind fun b =>
          .ok (Instruction.mk offset width (.PushFunction pars (b.length + 1))
            :: b ++ [Instruction.mk offset width .Return])
      | .FunctionCall func args =>
          (compileExpressionList args).bind fun argsCode =>
          let argsBlock := argsCode
            ++ [Instruction.mk offset width (.PushNum (args.length : Int))]
            ++ [Instruction.mk offset width .Return]
          (compileExpression func).bind fun funcCode =>
          .ok (funcCode
            ++ [Instruction.mk offset width (.CallFunction argsBlock.length)]
            ++ argsBlock)
      | .ListE items =>
          (compileExpressionList items).bind fun code =>
          .ok (code ++ [Instruction.mk offset width (.PushList (items.length : Int))])

/-- The element loops of the `FunctionCall`/`List` arms: compile each
expression in order and concatenate. -/
def compileExpressionList : List Expression → Outcome (List Instruction)
  | [] => .ok []
  | e :: rest =>
      (compileExpression e).bind fun c =>
      (compileExpressionList rest).bind fun cs =>
      .ok (c ++ cs)

/-- `Compiler::get_compiled`: concatenate the declarations' code. -/
def compileAST : List Declaration → Outcome (List Instruction)
  | [] => .ok []
  | d :: rest =>
      (compileDeclaration d).bind fun c =>
      (compileAST rest).bind fun cs =>
      .ok (c ++ cs)

end

/-- Compile an AST and run the program on a fresh VM, keeping only the
rendered result. -/
def compileAndRun (fuel : Nat) (ast : List Declaration) : Outcome String :=
  (compileAST ast).bind fun program => vmRunStr fuel program

/-- The function literal `(x) => x + 1`. -/
def lamXplus1 : Expression :=
  .mk 0 9 (.Function ["x"]
    [Declaration.mk (Statement.mk 6 3 false
      (.mk 6 3 (.Binary (.mk 6 1 (.Identifier "x"))
        (.mk 8 1 (.Literal (.Int 1))) .Plus 7 1)))])

/-- The program `((x) => x + 1)(n)` as an AST. -/
def callAST (n : Int) : List Declaration :=
  [Declaration.mk (Statement.mk 0 12 false
    (.mk 0 12 (.FunctionCall lamXplus1 [Expression.mk 10 1 (.Literal (.Int n))])))]


/-- True exactly on `Int` and `Float` values (the pairs the arithmetic
dispatch accepts). -/
def isNumeric : Value → Bool
  | .Int _ => true
  | .Float _ => true
  | _ => false

/-- True exactly on `Variable` placeholders. -/
def isVariableV : Value → Bool
  | .Variable _ => true
  | _ => false

/-- The root instance's scope as `VM::exec` builds it: a child of the
rootless `Scope::initial`. -/
def rootScope : ScopeT := ScopeT.child [] (ScopeT.initial [])

/-- The value in the slot `stacki` points at (the logical top of stack). -/
def stackTop (s : Stack) : Option Value :=
  match s.stack.get? s.stacki.toNat with
  | some (some v) => some v
  | _ => none

/-- Projection of a finished execution onto the instance's scope. -/
def outScope : Outcome (ScopeT × MachineState) → Option ScopeT
  | .ok (sc, _) => some sc
  | _ => none

/-- Projection of a finished execution onto the top of the stack. -/
def outTop : Outcome (ScopeT × MachineState) → Option Value
  | .ok (_, st) => stackTop st.stack
  | _ => none

/-!
Reference-count model of the garbage collector (vm/pool.rs).

At the moment `Pool::garbage` runs, every live `Rc` clone of a pooled
allocation is either the pool's own entry, a stack slot, a scope binding,
or a local held by an enclosing call frame.  `GCState` records those
reference holders per allocation id; `strongCount` is then exactly
`Rc::strong_count` of the pool's entry, and `gcSweep` is `Pool::garbage`:
keep exactly the entries whose strong count exceeds 1.
-/

/-- Reference holders of the pooled allocations at sweep time. -/
structure GCState where
  pool : List Nat
  stackRefs : List (Option Nat)
  scopeRefs : List (String × Nat)
  frameRefs : List Nat
deriving DecidableEq

/-- `Rc::strong_count` of the pool's entry for allocation `id`: one count
per holder (the pool itself included). -/
def strongCount (s : GCState) (id : Nat) : Nat :=
  s.pool.count id
    + (s.stackRefs.filterMap (fun x => x)).count id
    + (s.scopeRefs.map Prod.snd).count id
    + s.frameRefs.count id

/-- `Pool::garbage`: rebuild the pool from the entries whose strong count
is greater than 1; an entry held only by the pool is dropped. -/
def gcSweep (s : GCState) : GCState :=
  { s with pool := s.pool.filter (fun v => 1 < strongCount s v) }

/-- The two-argument function literal `(x, y) => x - y`. -/
def lamSub : Expression :=
  .mk 0 14 (.Function ["x", "y"]
    [Declaration.mk (Statement.mk 9 5 false
      (.mk 9 5 (.Binary (.mk 9 1 (.Identifier "x"))
        (.mk 13 1 (.Identifier "y")) .Minus 11 1)))])

/-- The program `((x, y) => x - y)(10, 4)` as an AST. -/
def callSubAST : List Declaration :=
  [Declaration.mk (Statement.mk 0 22 false
    (.mk 0 22 (.FunctionCall lamSub
      [Expression.mk 16 2 (.Literal (.Int 10)),
       Expression.mk 20 1 (.Literal (.Int 4))])))]

/-- The program `((x) => x + 1)(4, 5)` (wrong argument count) as an AST. -/
def callWrongCountAST : List Declaration :=
  [Declaration.mk (Statement.mk 0 15 false
    (.mk 0 15 (.FunctionCall lamXplus1
      [Expression.mk 10 1 (.Literal (.Int 4)),
       Expression.mk 13 1 (.Literal (.Int 5))])))]

/-- The program `((x) => x + 1)(a = 3); a` as an AST: the assignment runs
inside the call's argument block, i.e. in the child instance's scope. -/
def isolationAST : List Declaration :=
  [Declaration.mk (Statement.mk 0 12 true
    (.mk 0 12 (.FunctionCall lamXplus1
      [Expression.mk 10 5 (.Binary (.mk 10 1 (.Identifier "a"))
        (.mk 14 1 (.Literal (.Int 3))) .Equals 12 1)]))),
   Declaration.mk (Statement.mk 17 1 false (.mk 17 1 (.Identifier "a")))]

/-- The program `a = 5; a` as an AST. -/
def assignAST : List Declaration :=
  [Declaration.mk (Statement.mk 0 5 true
    (.mk 0 5 (.Binary (.mk 0 1 (.Identifier "a"))
      (.mk 4 1 (.Literal (.Int 5))) .Equals 2 1))),
   Declaration.mk (Statement.mk 7 1 false (.mk 7 1 (.Identifier "a")))]

/-- The compiled form of the single statement `a = 5`. -/
def assignProg : List Instruction :=
  [Instruction.mk 0 1 (.PushVar "a"), Instruction.mk 4 1 (.PushNum 5),
   Instruction.mk 2 1 .Assign]

/-- The program `null` (a bare null literal) as an AST. -/
def nullAST : List Declaration :=
  [Declaration.mk (Statement.mk 0 4 false (.mk 0 4 (.Literal .Null)))]

/-- The program `[1, 2]` (a list literal) as an AST. -/
def listAST : List Declaration :=
  [Declaration.mk (Statement.mk 0 6 false
    (.mk 0 6 (.ListE [Expression.mk 1 1 (.Literal (.Int 1)),
      Expression.mk 4 1 (.Literal (.Int 2))])))]

/-- The AST of the expression `a / b` on two integer literals. -/
def divAST (a b : Int) : List Declaration :=
  [Declaration.mk (Statement.mk 0 3 false
    (.mk 0 3 (.Binary (.mk 0 1 (.Literal (.Int a)))
      (.mk 2 1 (.Literal (.Int b))) .FSlash 1 1)))]

/-- The instruction sequence `1 / 0` compiles to. -/
def divProg : List Instruction :=
  [Instruction.mk 0 1 (.PushNum 1), Instruction.mk 2 1 (.PushNum 0),
   Instruction.mk 1 1 .Divide]

/-- A fixed instruction used to drive the stack in isolation. -/
def dummyI : Instruction := Instruction.mk 0 0 (.PushNum 0)

/-- `n` consecutive pushes of `Int(0)` onto a fresh stack. -/
def pushN : Nat → Outcome Stack
  | 0 => .ok Stack.new
  | Nat.succ n => (pushN n).bind fun s => s.push dummyI (Value.Int 0)

/-- The number of live values (`stacki`) after `n` pushes on a fresh
stack (`-1` if the pushes did not all succeed). -/
def pushNLive (n : Nat) : Int :=
  match pushN n with
  | .ok s => s.stacki
  | _ => -1

/-- The error produced by the 512th push on a fresh stack. -/
def pushOverflowError : Error :=
  (Error.new 0 0 (.VMError (.StackOverflow 512 512))).with_description
    "Stack overflow during operation [PushNum(0)]"

/-- A value pushed once onto a fresh stack lands in slot 1. -/
def pushedStack (v : Value) : Stack :=
  { stacki := 1, stack := (List.replicate STACK_SIZE none).set 1 (some v) }

/-- The two-instruction program `PushFunction ["x"] 1; Return` (the
compiled form of the literal `(x) => ` with an empty body). -/
def c2Program : List Instruction :=
  [Instruction.mk 0 1 (.PushFunction ["x"] 1), Instruction.mk 0 1 .Return]

/-- A stack holding `Variable "a"` under `Int 5` (as just before an
`Assign`), and the machine state around it. -/
def varIntStack : Stack :=
  { stacki := 2, stack := [none, some (Value.Variable "a"), some (Value.Int 5)] }

def varIntState : MachineState :=
  { stack := varIntStack, pool := [], icount := 0 }

/-- `varIntStack` after one pop. -/
def varMidStack : Stack :=
  { stacki := 1, stack := [none, some (Value.Variable "a"), some (Value.Int 5)] }

/-- `varIntStack` after two pops (the slots are left in place). -/
def varPoppedStack : Stack :=
  { stacki := 0, stack := [none, some (Value.Variable "a"), some (Value.Int 5)] }

/-- A stack holding two `Int` values (an `Assign` on it must fail), and
the machine state around it. -/
def twoIntStack : Stack :=
  { stacki := 2, stack := [none, some (Value.Int 1), some (Value.Int 2)] }

def twoIntState : MachineState :=
  { stack := twoIntStack, pool := [], icount := 0 }

/-- `twoIntStack` after one pop. -/
def twoIntMidStack : Stack :=
  { stacki := 1, stack := [none, some (Value.Int 1), some (Value.Int 2)] }

/-- A sweep-time reference census: allocations 0, 1, 2 pooled; 0 is also
in a stack slot, 2 also in a scope binding, 1 only in the pool. -/
def gcExample : GCState :=
  { pool := [0, 1, 2], stackRefs := [some 0], scopeRefs := [("a", 2)],
    frameRefs := [] }

/-- `twoIntStack` after two pops. -/
def twoIntPoppedStack : Stack :=
  { stacki := 0, stack := [none, some (Value.Int 1), some (Value.Int 2)] }

/-- A concrete `Add` instruction. -/
def addI : Instruction := Instruction.mk 9 1 .Add

/-- A root scope binding `x` to `Int 9`, and a child of it shadowing `x`
with `Int 1`. -/
def outerScope : ScopeT := ScopeT.initial [("x", Value.Int 9)]

def innerScope : ScopeT := ScopeT.child [("x", Value.Int 1)] outerScope

/-!
Intermediate machine states of the run of `((x) => x + 1)(n)`, used to
split its execution around the one step whose reduction depends on `n` —
the overflow-checked `x + 1`.  They are exactly the states the interpreter
reaches; the proofs below verify that by definitional unfolding.
-/

/-- The compiled form of `((x) => x + 1)(n)`. -/
def c1Prog (n : Int) : List Instruction :=
  [Instruction.mk 0 9 (.PushFunction ["x"] 4),
   Instruction.mk 6 1 (.PushVar "x"),
   Instruction.mk 8 1 (.PushNum 1),
   Instruction.mk 7 1 .Add,
   Instruction.mk 0 9 .Return,
   Instruction.mk 0 12 (.CallFunction 3),
   Instruction.mk 10 1 (.PushNum n),
   Instruction.mk 0 12 (.PushNum 1),
   Instruction.mk 0 12 .Return]

/-- The `Add` instruction of the body `x + 1`. -/
def c1AddI : Instruction := Instruction.mk 7 1 .Add

/-- Stack contents after the args block of the call ran: the callee in
slot 1, the argument in slot 2, the argument count in slot 3. -/
def c1L3 (n : Int) : List (Option Value) :=
  (((List.replicate STACK_SIZE (none : Option Value)).set 1
      (some (Value.Function 0))).set 2 (some (Value.Int n))).set 3
    (some (Value.Int 1))

/-- Stack contents just before the body's `Add`: the `Variable "x"`
placeholder in slot 1 and the literal 1 in slot 2. -/
def c1L5 (n : Int) : List (Option Value) :=
  ((c1L3 n).set 1 (some (Value.Variable "x"))).set 2 (some (Value.Int 1))

/-- Pool contents just before the body's `Add`. -/
def c1Pool5 (n : Int) : List Value :=
  [Value.Function 0, Value.Int n, Value.Int 1, Value.Variable "x", Value.Int 1]

/-- The body instance's scope: `x` bound to the popped argument. -/
def c1BodyScope (n : Int) : ScopeT := ScopeT.child [("x", Value.Int n)] rootScope

/-- Machine state at entry of the function body (position + 1). -/
def c1StB (n : Int) : MachineState :=
  { stack := { stacki := 0, stack := c1L3 n },
    pool := [Value.Function 0, Value.Int n, Value.Int 1], icount := 3 }

/-- Machine state just before the body's `Add`. -/
def c1StB3 (n : Int) : MachineState :=
  { stack := { stacki := 2, stack := c1L5 n }, pool := c1Pool5 n, icount := 5 }

/-- Machine state just after the body's `Add` pushed its result. -/
def c1StB4 (n : Int) : MachineState :=
  { stack := { stacki := 1, stack := (c1L5 n).set 1 (some (Value.Int (n + 1))) },
    pool := c1Pool5 n ++ [Value.Int (n + 1)], icount := 5 }

/-!
Theorems.
-/

theorem varsGet_insert_self (vars : List (String × Value)) (k : String) (v : Value) :
    varsGet (varsInsert vars k v) k = some v := by
  induction vars with
  | nil => simp [varsInsert, varsGet]
  | cons hd tl ih =>
      by_cases h : hd.1 = k
      · simp [varsInsert, h, varsGet]
      · simp [varsInsert, h, varsGet, ih]

theorem pushN_ok_le (n : Nat) : n ≤ 511 →
    ∃ s, pushN n = .ok s ∧ s.stacki = n ∧ s.stack.length = 512 := by
  induction n with
  | zero =>
      intro _
      exact ⟨Stack.new, rfl, rfl, by simp [Stack.new, STACK_SIZE]⟩
  | succ n ih =>
      intro h
      obtain ⟨s, hs, hi, hl⟩ := ih (by omega)
      have hc : Stack.check_range s dummyI 1 = .ok () := by
        have : ¬(s.stacki + 1 < 0 ∨ (STACK_SIZE : Int) ≤ s.stacki + 1) := by
          simp only [STACK_SIZE, hi]
          omega
        simp [Stack.check_range, this]
      refine ⟨{ stacki := s.stacki + 1,
                stack := s.stack.set (s.stacki + 1).toNat (some (Value.Int 0)) },
              ?_, by simp [hi], by simp [hl]⟩
      simp [pushN, hs, Outcome.bind, Stack.push, hc]

theorem pushN_succ (n : Nat) :
    pushN (n + 1) = (pushN n).bind (fun s => s.push dummyI (Value.Int 0)) := rfl

theorem pushN_512 : pushN 512 = .err pushOverflowError := by
  obtain ⟨s, hs, hi, _⟩ := pushN_ok_le 511 (by omega)
  have hcond : s.stacki + 1 < 0 ∨ (STACK_SIZE : Int) ≤ s.stacki + 1 := by
    simp only [STACK_SIZE, hi]
    omega
  have hc : Stack.check_range s dummyI 1
      = .err ((Error.new dummyI.offset dummyI.width
          (.VMError (.StackOverflow STACK_SIZE (s.stacki + 1)))).with_description
          ("Stack overflow during operation [" ++ debugCode dummyI.code ++ "]")) := by
    simp [Stack.check_range, hcond]
  have hstep := pushN_succ 511
  rw [(by norm_num : (511 : Nat) + 1 = 512)] at hstep
  rw [hstep, hs]
  simp only [Outcome.bind, Stack.push, hc, hi]
  decide

theorem pushN_past_512 (m : Nat) : pushN (512 + m) = .err pushOverflowError := by
  induction m with
  | zero => exact pushN_512
  | succ m ih =>
      have harith : 512 + (m + 1) = (512 + m) + 1 := by omega
      rw [harith, pushN_succ, ih]
      rfl

/-- C1: executing a `CallFunction` evaluates the trailing argument block
in a child instance, requires the popped argument count to equal the
callee's parameter count (else `MismatchedArgumentCount`), binds the
popped arguments reversed back into declaration order, runs the body from
the callee's position + 1, pushes its result onto the caller's stack and
advances past the args block.  Conjuncts: `((x) => x + 1)(n)` returns
`Int(n + 1)` for every `i32`-range `n` (in particular 4 ↦ 5, and the
increment is the checked `i32` addition); calling it with two
arguments fails with `MismatchedArgumentCount`; `((x, y) => x - y)(10, 4)`
returns `Int(6)` (so the popped arguments really are reversed back into
declaration order); and an assignment evaluated inside the argument block
lands in the child instance's scope, invisible to the caller afterwards. -/
theorem C1_call_function :
    (∀ n : Int, I32_MIN ≤ n → n < I32_MAX →
        compileAndRun 50 (callAST n) = .ok ("Int(" ++ toString (n + 1) ++ ")"))
    ∧ compileAndRun 50 callWrongCountAST
        = .err (Error.new 0 15 (.VMError .MismatchedArgumentCount))
    ∧ compileAndRun 80 callSubAST = .ok "Int(6)"
    ∧ compileAndRun 80 isolationAST = .ok "Null" := by
  refine ⟨?_, by decide, by decide, by decide⟩
  intro n h1 h2
  have hcond : ¬(n + 1 < I32_MIN ∨ I32_MAX < n + 1) := by
    simp only [I32_MIN, I32_MAX] at h1 h2 ⊢
    omega
  have hok : checkedI32 "attempt to add with overflow" (n + 1)
      = .ok (Value.Int (n + 1)) := by
    unfold checkedI32
    rw [if_neg hcond]
  have hsplit : computeTwoOperands (c1BodyScope n) (c1StB3 n) c1AddI
      = (checkedI32 "attempt to add with overflow" (n + 1)).bind
          (fun v => (Stack.push { stacki := 0, stack := c1L5 n } c1AddI v).bind
            (fun s3 => .ok { stack := s3, pool := c1Pool5 n ++ [v],
                             icount := 5 })) := rfl
  have hcompute : computeTwoOperands (c1BodyScope n) (c1StB3 n) c1AddI
      = .ok (c1StB4 n) := by
    rw [hsplit, hok]
    rfl
  have hstep : doExec 48 (c1Prog n) (c1BodyScope n) (c1StB n) 1
      = (computeTwoOperands (c1BodyScope n) (c1StB3 n) c1AddI).bind
          (fun st' => doExec 45 (c1Prog n) (c1BodyScope n) (gcTick st') 4) := rfl
  have hbody : doExec 48 (c1Prog n) (c1BodyScope n) (c1StB n) 1
      = .ok (c1BodyScope n, gcTick (c1StB4 n)) := by
    rw [hstep, hcompute]
    rfl
  have houter : compileAndRun 50 (callAST n)
      = ((((doExec 48 (c1Prog n) (c1BodyScope n) (c1StB n) 1).bind
            (fun p =>
              match Stack.pop p.2.stack (Instruction.mk 0 12 (.CallFunction 3)) with
              | .ok (val, s6) =>
                  (s6.push (Instruction.mk 0 12 (.CallFunction 3))
                    (resolveValue p.1 val)).bind fun s7 =>
                  .ok { p.2 with stack := s7 }
              | .err _ => .ok p.2
              | .panic m => .panic m
              | .timeout => .timeout)).bind
           (fun st6 => doExec 48 (c1Prog n) rootScope (gcTick st6) 9)).bind
          (fun q =>
            match Stack.pop q.2.stack (Instruction.mk 0 0 .Null) with
            | .ok (v, s') =>
                .ok (debugValue (resolveValue q.1 v), q.1, { q.2 with stack := s' })
            | .err _ => .ok (debugValue Value.Null, q.1, q.2)
            | .panic m => .panic m
            | .timeout => .timeout)).bind
         (fun r => .ok r.1) := rfl
  rw [houter, hbody]
  rfl

/-- C9: a `Divide` whose operands both resolve to `Int` with divisor 0 is
not a reported `VMError`: the unguarded `first / second` is a Rust panic,
so the execution outcome is a panic, never `err`. -/
theorem C9_div_by_zero_panics :
    doExec 10 divProg rootScope MachineState.fresh 0
        = .panic "attempt to divide by zero"
    ∧ (∀ off w a, computeValues (Instruction.mk off w .Divide)
        (Value.Int a) (Value.Int 0) = .panic "attempt to divide by zero") :=
  ⟨by decide, fun _ _ _ => rfl⟩

/-- C3 counterexample: on a fresh stack 511 pushes succeed (leaving 511
live values), yet the next push — with fewer than 512 values live — fails
with `StackOverflow\x7bstack_size: 512, index: 512\x7d`, refuting "push
succeeds exactly while fewer than 512 values are live": slot 0 is never
used, so the effective capacity is 511. -/
theorem C3_counterexample :
    (pushN 511).isOk = true ∧ pushNLive 511 = 511
    ∧ pushN 512 = .err pushOverflowError := by
  obtain ⟨s, hs, hi, _⟩ := pushN_ok_le 511 (by omega)
  exact ⟨by simp [hs, Outcome.isOk], by simp [pushNLive, hs, hi], pushN_512⟩

/-- C3 (amended): on a fresh stack pushes succeed exactly while at most
511 values were pushed (the bounds check fires one slot early because slot
0 is never used); popping when the index would go below 0 fails with the
same `StackOverflow` error carrying `stack_size` 512 and the offending
index; and the capacity is fixed — neither push nor pop ever resizes the
backing vector. -/
theorem C3_stack_bounds :
    (∀ n : Nat, (pushN n).isOk = true ↔ n ≤ 511)
    ∧ (∀ s instr, s.stacki - 1 < 0 →
        Stack.pop s instr = .err ((Error.new instr.offset instr.width
          (.VMError (.StackOverflow STACK_SIZE (s.stacki - 1)))).with_description
          ("Stack overflow during operation [" ++ debugCode instr.code ++ "]")))
    ∧ (∀ s instr v s', Stack.push s instr v = .ok s' →
        s'.stack.length = s.stack.length)
    ∧ (∀ s instr v s', Stack.pop s instr = .ok (v, s') → s'.stack = s.stack) := by
  refine ⟨?_, ?_, ?_, ?_⟩
  · intro n
    constructor
    · intro hok
      by_contra hgt
      push_neg at hgt
      have hn : n = 512 + (n - 512) := by omega
      rw [hn, pushN_past_512] at hok
      simp [Outcome.isOk] at hok
    · intro hle
      obtain ⟨s, hs, _, _⟩ := pushN_ok_le n hle
      simp [hs, Outcome.isOk]
  · intro s instr h
    have hc : Stack.check_range s instr (-1)
        = .err ((Error.new instr.offset instr.width
            (.VMError (.StackOverflow STACK_SIZE (s.stacki - 1)))).with_description
            ("Stack overflow during operation [" ++ debugCode instr.code ++ "]")) := by
      simp only [Stack.check_range]
      rw [show s.stacki + (-1) = s.stacki - 1 by ring]
      rw [if_pos (Or.inl (by omega : s.stacki - 1 < 0))]
    unfold Stack.pop
    rw [hc]
    rfl
  · intro s instr v s' h
    unfold Stack.push at h
    cases hc : Stack.check_range s instr 1 with
    | ok u =>
        rw [hc] at h
        simp only [Outcome.bind, Outcome.ok.injEq] at h
        rw [← h]
        simp
    | err e => rw [hc] at h; exact Outcome.noConfusion h
    | panic m => rw [hc] at h; exact Outcome.noConfusion h
    | timeout => rw [hc] at h; exact Outcome.noConfusion h
  · intro s instr v s' h
    unfold Stack.pop at h
    cases hc : Stack.check_range s instr (-1) with
    | ok u =>
        rw [hc] at h
        simp only [Outcome.bind] at h
        cases hg : s.stack.get? s.stacki.toNat with
        | none => rw [hg] at h; exact Outcome.noConfusion h
        | some o =>
            cases o with
            | none => rw [hg] at h; exact Outcome.noConfusion h
            | some v0 =>
                rw [hg] at h
                simp only [Outcome.ok.injEq, Prod.mk.injEq] at h
                rw [← h.2]
    | err e => rw [hc] at h; exact Outcome.noConfusion h
    | panic m => rw [hc] at h; exact Outcome.noConfusion h
    | timeout => rw [hc] at h; exact Outcome.noConfusion h

/-- C3 witness: the amended bounds at concrete inputs — a pop on the
fresh (empty) stack overflows with index `-1`, three pushes succeed, and
a successful push preserves the backing vector's length. -/
theorem C3_witness :
    Stack.pop Stack.new dummyI
      = .err ((Error.new 0 0 (.VMError (.StackOverflow STACK_SIZE (-1)))).with_description
          "Stack overflow during operation [PushNum(0)]")
    ∧ (pushN 3).isOk = true
    ∧ (pushedStack (Value.Int 0)).stack.length = Stack.new.stack.length :=
  ⟨C3_stack_bounds.2.1 Stack.new dummyI (by decide),
   (C3_stack_bounds.1 3).mpr (by omega),
   C3_stack_bounds.2.2.1 Stack.new dummyI (Value.Int 0) (pushedStack (Value.Int 0))
     (by decide)⟩

/-- C10: a list literal compiles fine — the elements' code followed by
`PushList(n)` — but the VM dispatch has no `PushList` arm, so executing
any program containing one fails with `VMError::NotImplemented` carrying
the opcode (in the description) and the source span. -/
theorem C10_push_list :
    (∀ off w items code, compileExpressionList items = .ok code →
       compileExpression (Expression.mk off w (.ListE items))
         = .ok (code ++ [Instruction.mk off w (.PushList (items.length : Int))]))
    ∧ (∀ fuel program scope st index n instruction,
        program.get? index = some instruction → instruction.code = .PushList n →
        doExec (fuel + 1) program scope st index
          = .err (notImplementedError instruction))
    ∧ (compileAST listAST).isOk = true
    ∧ compileAndRun 50 listAST
        = .err (notImplementedError (Instruction.mk 0 6 (.PushList 2))) := by
  refine ⟨?_, ?_, by decide, by decide⟩
  · intro off w items code h
    simp [compileExpression, h, Outcome.bind]
  · intro fuel program scope st index n instruction hget hcode
    simp only [doExec, hget]
    rw [hcode]

/-- C10 witness: the two universal parts at a concrete input — compiling
`[1, 2]` emits the two pushes then `PushList(2)`, and a `PushList` at
index 0 of a concrete program fails `NotImplemented`. -/
theorem C10_witness :
    compileExpression (Expression.mk 0 6 (.ListE [Expression.mk 1 1 (.Literal (.Int 1)),
        Expression.mk 4 1 (.Literal (.Int 2))]))
      = .ok [Instruction.mk 1 1 (.PushNum 1), Instruction.mk 4 1 (.PushNum 2),
             Instruction.mk 0 6 (.PushList 2)]
    ∧ doExec 1 [Instruction.mk 0 6 (.PushList 2)] rootScope MachineState.fresh 0
      = .err (notImplementedError (Instruction.mk 0 6 (.PushList 2))) :=
  ⟨C10_push_list.1 0 6 [Expression.mk 1 1 (.Literal (.Int 1)),
      Expression.mk 4 1 (.Literal (.Int 2))]
      [Instruction.mk 1 1 (.PushNum 1), Instruction.mk 4 1 (.PushNum 2)] (by decide),
   C10_push_list.2.1 0 [Instruction.mk 0 6 (.PushList 2)] rootScope
      MachineState.fresh 0 2 (Instruction.mk 0 6 (.PushList 2)) (by decide) (by decide)⟩

/-- C8 counterexample: executing a compiled `null` literal does not push
a `Null` value — the dispatch has no `PushNull` arm, so the program fails
with `VMError::NotImplemented`. -/
theorem C8_counterexample :
    compileAndRun 50 nullAST
      = .err (notImplementedError (Instruction.mk 0 4 .PushNull)) := by decide

/-- C8 (amended): `PushNum`, `PushFloat` and `PushString` each allocate
their literal value in the pool and push it onto the stack; the compiler
does emit `PushNull` for a null literal, but unlike the other three
`PushNull` has no dispatch arm and falls to the fallback, failing with
`VMError::NotImplemented`. -/
theorem C8_push_literal_arms :
    (∀ off w, compileExpression (Expression.mk off w (.Literal .Null))
        = .ok [Instruction.mk off w .PushNull])
    ∧ (∀ fuel program scope st index i instruction stk',
        program.get? index = some instruction → instruction.code = .PushNum i →
        Stack.push st.stack instruction (Value.Int i) = .ok stk' →
        doExec (fuel + 1) program scope st index
          = doExec fuel program scope
              (gcTick { st with pool := st.pool ++ [Value.Int i], stack := stk' })
              (index + 1))
    ∧ (∀ fuel program scope st index f instruction stk',
        program.get? index = some instruction → instruction.code = .PushFloat f →
        Stack.push st.stack instruction (Value.Float f) = .ok stk' →
        doExec (fuel + 1) program scope st index
          = doExec fuel program scope
              (gcTick { st with pool := st.pool ++ [Value.Float f], stack := stk' })
              (index + 1))
    ∧ (∀ fuel program scope st index sLit instruction stk',
        program.get? index = some instruction → instruction.code = .PushString sLit →
        Stack.push st.stack instruction (Value.String sLit) = .ok stk' →
        doExec (fuel + 1) program scope st index
          = doExec fuel program scope
              (gcTick { st with pool := st.pool ++ [Value.String sLit], stack := stk' })
              (index + 1))
    ∧ (∀ fuel program scope st index instruction,
        program.get? index = some instruction → instruction.code = .PushNull →
        doExec (fuel + 1) program scope st index
          = .err (notImplementedError instruction)) := by
  refine ⟨?_, ?_, ?_, ?_, ?_⟩
  · intro off w
    simp [compileExpression]
  · intro fuel program scope st index i instruction stk' hget hcode hpush
    simp only [doExec, hget]
    rw [hcode]
    simp [MachineState.create, hpush, Outcome.bind]
  · intro fuel program scope st index f instruction stk' hget hcode hpush
    simp only [doExec, hget]
    rw [hcode]
    simp [MachineState.create, hpush, Outcome.bind]
  · intro fuel program scope st index sLit instruction stk' hget hcode hpush
    simp only [doExec, hget]
    rw [hcode]
    simp [MachineState.create, hpush, Outcome.bind]
  · intro fuel program scope st index instruction hget hcode
    simp only [doExec, hget]
    rw [hcode]

/-- C8 witness: the amended behaviours at concrete inputs — a `PushNum 7`
step allocates `Int(7)` and continues at the next index, and a `PushNull`
at index 0 fails `NotImplemented`. -/
theorem C8_witness :
    doExec 1 [Instruction.mk 0 1 (.PushNum 7)] rootScope MachineState.fresh 0
      = doExec 0 [Instruction.mk 0 1 (.PushNum 7)] rootScope
          (gcTick { MachineState.fresh with
                      pool := [Value.Int 7],
                      stack := pushedStack (Value.Int 7) }) 1
    ∧ doExec 1 [Instruction.mk 0 4 .PushNull] rootScope MachineState.fresh 0
      = .err (notImplementedError (Instruction.mk 0 4 .PushNull)) :=
  ⟨C8_push_literal_arms.2.1 0 [Instruction.mk 0 1 (.PushNum 7)] rootScope
      MachineState.fresh 0 7 (Instruction.mk 0 1 (.PushNum 7))
      (pushedStack (Value.Int 7)) (by decide) (by decide) (by decide),
   C8_push_literal_arms.2.2.2.2 0 [Instruction.mk 0 4 .PushNull] rootScope
      MachineState.fresh 0 (Instruction.mk 0 4 .PushNull) (by decide) (by decide)⟩

/-- C2: compiling a function literal emits `PushFunction` whose
`body_len` is the compiled body's length plus one (the trailing `Return`),
followed immediately by that body and the `Return`; and executing a
`PushFunction` at index `i` pushes a `Function` whose position is `i`
itself and continues straight-line execution at `i + body_len + 1`, never
falling through into the inlined body. -/
theorem C2_push_function :
    (∀ offset width pars body bodyCode,
       compileAST body = .ok bodyCode →
       compileExpression (Expression.mk offset width (.Function pars body))
         = .ok (Instruction.mk offset width (.PushFunction pars (bodyCode.length + 1))
             :: bodyCode ++ [Instruction.mk offset width .Return]))
    ∧ (∀ fuel program scope st index pars body_len instruction stk',
        program.get? index = some instruction →
        instruction.code = .PushFunction pars body_len →
        Stack.push st.stack instruction (Value.Function index) = .ok stk' →
        doExec (fuel + 1) program scope st index
          = doExec fuel program scope
              (gcTick { st with pool := st.pool ++ [Value.Function index],
                                stack := stk' })
              (index + body_len + 1)) := by
  refine ⟨?_, ?_⟩
  · intro offset width pars body bodyCode h
    simp [compileExpression, h, Outcome.bind]
  · intro fuel program scope st index pars body_len instruction stk' hget hcode hpush
    simp only [doExec, hget]
    rw [hcode]
    simp [MachineState.create, hpush, Outcome.bind]

/-- C2 witness: compiling `(x) => ` with an empty body, and a
`PushFunction ["x"] 1` step at index 0 of a concrete program: the pushed
value is `Function 0` and execution continues at index 2. -/
theorem C2_witness :
    compileExpression (Expression.mk 0 1 (.Function ["x"] []))
      = .ok [Instruction.mk 0 1 (.PushFunction ["x"] 1), Instruction.mk 0 1 .Return]
    ∧ doExec 1 c2Program rootScope MachineState.fresh 0
      = doExec 0 c2Program rootScope
          (gcTick { MachineState.fresh with
                      pool := [Value.Function 0],
                      stack := pushedStack (Value.Function 0) }) 2 :=
  ⟨C2_push_function.1 0 1 ["x"] [] [] rfl,
   C2_push_function.2 0 c2Program rootScope MachineState.fresh 0 ["x"] 1
     (Instruction.mk 0 1 (.PushFunction ["x"] 1)) (pushedStack (Value.Function 0))
     (by decide) (by decide) (by decide)⟩

/-- C4 counterexample: an integer division with divisor 0 does not push
an `Int` — the whole run is a Rust panic, so the claim's "if both resolve
to Int the result pushed is an Int" fails at `5 / 0`. -/
theorem C4_counterexample :
    compileAndRun 10 (divAST 5 0) = .panic "attempt to divide by zero" := by decide

/-- C4 (amended): for `Add`/`Subtract`/`Multiply`/`Divide` the VM pops
two operands, resolves each through the scope, and combines with `i32`
arithmetic: when both resolve to Int and the exact result fits in `i32`
an Int is pushed (division truncating toward zero), while `+`/`-`/`*`
overflow panics with the checked-arithmetic message, `Divide` with
divisor 0 panics (see C9), and `i32::MIN / -1` panics with the division
overflow message; a mixed Int/Float pair widens the Int operand and gives
Float; Float and Float give Float; every other pairing (two Strings
included) fails with `OperationNotSupported` describing both operands and
the opcode. -/
theorem C4_arithmetic :
    (∀ off w a b,
       (¬(a + b < I32_MIN ∨ I32_MAX < a + b) →
         computeValues (Instruction.mk off w .Add) (Value.Int a) (Value.Int b)
           = .ok (Value.Int (a + b)))
       ∧ ((a + b < I32_MIN ∨ I32_MAX < a + b) →
         computeValues (Instruction.mk off w .Add) (Value.Int a) (Value.Int b)
           = .panic "attempt to add with overflow")
       ∧ (¬(a - b < I32_MIN ∨ I32_MAX < a - b) →
         computeValues (Instruction.mk off w .Subtract) (Value.Int a) (Value.Int b)
           = .ok (Value.Int (a - b)))
       ∧ ((a - b < I32_MIN ∨ I32_MAX < a - b) →
         computeValues (Instruction.mk off w .Subtract) (Value.Int a) (Value.Int b)
           = .panic "attempt to subtract with overflow")
       ∧ (¬(a * b < I32_MIN ∨ I32_MAX < a * b) →
         computeValues (Instruction.mk off w .Multiply) (Value.Int a) (Value.Int b)
           = .ok (Value.Int (a * b)))
       ∧ ((a * b < I32_MIN ∨ I32_MAX < a * b) →
         computeValues (Instruction.mk off w .Multiply) (Value.Int a) (Value.Int b)
           = .panic "attempt to multiply with overflow")
       ∧ (b = 0 →
         computeValues (Instruction.mk off w .Divide) (Value.Int a) (Value.Int b)
           = .panic "attempt to divide by zero")
       ∧ (a = I32_MIN → b = -1 →
         computeValues (Instruction.mk off w .Divide) (Value.Int a) (Value.Int b)
           = .panic "attempt to divide with overflow")
       ∧ (b ≠ 0 → ¬(a = I32_MIN ∧ b = -1) →
         computeValues (Instruction.mk off w .Divide) (Value.Int a) (Value.Int b)
           = .ok (Value.Int (Int.tdiv a b))))
    ∧ (∀ off w a q,
       computeValues (Instruction.mk off w .Add) (Value.Int a) (Value.Float q)
         = .ok (Value.Float ((a : Rat) + q))
       ∧ computeValues (Instruction.mk off w .Subtract) (Value.Int a) (Value.Float q)
         = .ok (Value.Float ((a : Rat) - q))
       ∧ computeValues (Instruction.mk off w .Multiply) (Value.Int a) (Value.Float q)
         = .ok (Value.Float ((a : Rat) * q))
       ∧ computeValues (Instruction.mk off w .Divide) (Value.Int a) (Value.Float q)
         = .ok (Value.Float ((a : Rat) / q))
       ∧ computeValues (Instruction.mk off w .Add) (Value.Float q) (Value.Int a)
         = .ok (Value.Float (q + (a : Rat)))
       ∧ computeValues (Instruction.mk off w .Subtract) (Value.Float q) (Value.Int a)
         = .ok (Value.Float (q - (a : Rat)))
       ∧ computeValues (Instruction.mk off w .Multiply) (Value.Float q) (Value.Int a)
         = .ok (Value.Float (q * (a : Rat)))
       ∧ computeValues (Instruction.mk off w .Divide) (Value.Float q) (Value.Int a)
         = .ok (Value.Float (q / (a : Rat))))
    ∧ (∀ off w p r,
       computeValues (Instruction.mk off w .Add) (Value.Float p) (Value.Float r)
         = .ok (Value.Float (p + r))
       ∧ computeValues (Instruction.mk off w .Subtract) (Value.Float p) (Value.Float r)
         = .ok (Value.Float (p - r))
       ∧ computeValues (Instruction.mk off w .Multiply) (Value.Float p) (Value.Float r)
         = .ok (Value.Float (p * r))
       ∧ computeValues (Instruction.mk off w .Divide) (Value.Float p) (Value.Float r)
         = .ok (Value.Float (p / r)))
    ∧ (∀ instruction v1 v2, isNumeric v1 = false ∨ isNumeric v2 = false →
        computeValues instruction v1 v2
          = .err (operationNotSupported instruction v1 v2))
    ∧ (∀ scope st instruction v2 s1 v1 s2,
        Stack.pop st.stack instruction = .ok (v2, s1) →
        Stack.pop s1 instruction = .ok (v1, s2) →
        computeTwoOperands scope st instruction
          = (computeValues instruction (resolveValue scope v1)
               (resolveValue scope v2)).bind
              (fun v => (Stack.push s2 instruction v).bind fun s3 =>
                .ok { st with pool := st.pool ++ [v], stack := s3 })) := by
  refine ⟨?_, ?_, ?_, ?_, ?_⟩
  · intro off w a b
    refine ⟨?_, ?_, ?_, ?_, ?_, ?_, ?_, ?_, ?_⟩
    · intro h
      simp [computeValues, checkedI32, h]
    · intro h
      simp [computeValues, checkedI32, h]
    · intro h
      simp [computeValues, checkedI32, h]
    · intro h
      simp [computeValues, checkedI32, h]
    · intro h
      simp [computeValues, checkedI32, h]
    · intro h
      simp [computeValues, checkedI32, h]
    · intro h
      simp [computeValues, h]
    · intro ha hb
      subst ha
      subst hb
      simp [computeValues]
    · intro hb hno
      simp [computeValues, hb, hno]
  · intro off w a q
    exact ⟨rfl, rfl, rfl, rfl, rfl, rfl, rfl, rfl⟩
  · intro off w p r
    exact ⟨rfl, rfl, rfl, rfl⟩
  · intro instruction v1 v2 h
    cases v1 <;> cases v2 <;> simp_all [isNumeric, computeValues]
  · intro scope st instruction v2 s1 v1 s2 h1 h2
    simp [computeTwoOperands, h1, h2, Outcome.bind, MachineState.create]

/-- C4 witness: the amended dispatch at concrete inputs — `7 / -2`
truncates toward zero to `-3`, `i32::MIN / -1` and `i32::MAX + 1` panic
with the two overflow messages, an in-range addition pushes its Int, two
Strings fail `OperationNotSupported`, and `computeTwoOperands` on a stack
holding `Int 1` under `Int 2` pops and combines them. -/
theorem C4_witness :
    computeValues (Instruction.mk 0 1 .Divide) (Value.Int 7) (Value.Int (-2))
      = .ok (Value.Int (-3))
    ∧ computeValues (Instruction.mk 0 1 .Divide) (Value.Int I32_MIN) (Value.Int (-1))
      = .panic "attempt to divide with overflow"
    ∧ computeValues (Instruction.mk 0 1 .Add) (Value.Int I32_MAX) (Value.Int 1)
      = .panic "attempt to add with overflow"
    ∧ computeValues (Instruction.mk 0 1 .Add) (Value.Int 2) (Value.Int 3)
      = .ok (Value.Int 5)
    ∧ computeValues (Instruction.mk 0 1 .Add) (Value.String "a") (Value.String "b")
      = .err (operationNotSupported (Instruction.mk 0 1 .Add)
          (Value.String "a") (Value.String "b"))
    ∧ computeTwoOperands rootScope twoIntState addI
      = (computeValues addI (Value.Int 1) (Value.Int 2)).bind
          (fun v => (Stack.push twoIntPoppedStack addI v).bind fun s3 =>
            .ok { twoIntState with pool := [v], stack := s3 }) := by
  refine ⟨?_, ?_, ?_, ?_, ?_, ?_⟩
  · have h := (C4_arithmetic.1 0 1 7 (-2)).2.2.2.2.2.2.2.2 (by decide) (by decide)
    rw [h]
    decide
  · exact (C4_arithmetic.1 0 1 I32_MIN (-1)).2.2.2.2.2.2.2.1 rfl rfl
  · exact (C4_arithmetic.1 0 1 I32_MAX 1).2.1 (by decide)
  · have h := (C4_arithmetic.1 0 1 2 3).1 (by decide)
    rw [h]
    decide
  · exact C4_arithmetic.2.2.2.1 (Instruction.mk 0 1 .Add)
      (Value.String "a") (Value.String "b") (Or.inl rfl)
  · exact C4_arithmetic.2.2.2.2 rootScope twoIntState addI (Value.Int 2)
      twoIntMidStack (Value.Int 1) twoIntPoppedStack (by decide) (by decide)

/-- C5: `Assign` pops the RHS first and the LHS second; a non-`Variable`
LHS fails with `AssignToNonVariable` (describing the value); otherwise
the RHS is resolved, the binding written into the current scope, and the
original LHS placeholder pushed back as the result — so `a = 5` leaves
the `Variable "a"` reference on the stack, binds `a` to `Int 5` in the
executing scope, and the two-statement program `a = 5; a` evaluates to
`Int(5)`. -/
theorem C5_assign :
    (∀ scope st instr rhs s1 lhs s2,
       Stack.pop st.stack instr = .ok (rhs, s1) →
       Stack.pop s1 instr = .ok (lhs, s2) →
       ((∀ id, lhs = Value.Variable id →
           assignOp scope st instr
             = (Stack.push s2 instr lhs).bind fun s3 =>
                 .ok (scope.set_variable id (resolveValue scope rhs),
                      { st with stack := s3 }))
        ∧ (isVariableV lhs = false →
           assignOp scope st instr
             = .err ((Error.new instr.offset instr.width
                 (.VMError .AssignToNonVariable)).with_description
                 ("cannot assign to [" ++ debugValue lhs ++ "]")))))
    ∧ outTop (doExec 10 assignProg rootScope MachineState.fresh 0)
        = some (Value.Variable "a")
    ∧ (outScope (doExec 10 assignProg rootScope MachineState.fresh 0)).map
        (fun sc => sc.get_variable "a") = some (some (Value.Int 5))
    ∧ compileAndRun 50 assignAST = .ok "Int(5)" := by
  refine ⟨?_, by decide, by decide, by decide⟩
  intro scope st instr rhs s1 lhs s2 h1 h2
  constructor
  · intro id hid
    subst hid
    simp [assignOp, h1, h2, Outcome.bind]
  · intro hnv
    cases lhs <;> simp_all [isVariableV] <;> simp [assignOp, h1, h2, Outcome.bind]

/-- C5 witness: the general `Assign` behaviour at concrete stacks — with
`Variable "a"` under `Int 5` the binding is written and the placeholder
re-pushed; with `Int 1` under `Int 2` it fails `AssignToNonVariable`. -/
theorem C5_witness :
    assignOp rootScope varIntState dummyI
      = (Stack.push varPoppedStack dummyI (Value.Variable "a")).bind (fun s3 =>
          .ok (rootScope.set_variable "a" (resolveValue rootScope (Value.Int 5)),
               { varIntState with stack := s3 }))
    ∧ assignOp rootScope twoIntState dummyI
      = .err ((Error.new 0 0 (.VMError .AssignToNonVariable)).with_description
          "cannot assign to [Int(1)]") := by
  refine ⟨?_, ?_⟩
  · exact (C5_assign.1 rootScope varIntState dummyI (Value.Int 5) varMidStack
      (Value.Variable "a") varPoppedStack (by decide) (by decide)).1 "a" rfl
  · have h := (C5_assign.1 rootScope twoIntState dummyI (Value.Int 2) twoIntMidStack
      (Value.Int 1) twoIntPoppedStack (by decide) (by decide)).2 (by decide)
    rw [h]
    decide

/-- C6: `get_variable` searches the local map first and then the parent
chain, `None` (coerced to `Null` by the VM's resolution) when bound
nowhere; `set_variable` always inserts into the innermost scope's own
map, leaving the parent chain untouched even when an ancestor binds the
same name — assignment shadows rather than mutates outer bindings. -/
theorem C6_scope :
    (∀ vars parent name v, varsGet vars name = some v →
        (ScopeT.child vars parent).get_variable name = some v)
    ∧ (∀ vars parent name, varsGet vars name = none →
        (ScopeT.child vars parent).get_variable name = parent.get_variable name)
    ∧ (∀ vars name, (ScopeT.initial vars).get_variable name = varsGet vars name)
    ∧ (∀ (scope : ScopeT) name, scope.get_variable name = none →
        resolveValue scope (Value.Variable name) = Value.Null)
    ∧ (∀ vars parent name v,
        (ScopeT.child vars parent).set_variable name v
          = ScopeT.child (varsInsert vars name v) parent)
    ∧ (∀ (scope : ScopeT) name v, (scope.set_variable name v).parentScope = scope.parentScope)
    ∧ (∀ (scope : ScopeT) name v, (scope.set_variable name v).get_variable name = some v) := by
  refine ⟨?_, ?_, ?_, ?_, ?_, ?_, ?_⟩
  · intro vars parent name v h
    simp [ScopeT.get_variable, h]
  · intro vars parent name h
    simp [ScopeT.get_variable, h]
  · intro vars name
    rfl
  · intro scope name h
    simp [resolveValue, h]
  · intro vars parent name v
    rfl
  · intro scope name v
    cases scope <;> rfl
  · intro scope name v
    cases scope with
    | initial vars =>
        simp [ScopeT.set_variable, ScopeT.get_variable, varsGet_insert_self]
    | child vars parent =>
        simp [ScopeT.set_variable, ScopeT.get_variable, varsGet_insert_self]

/-- C6 witness: lookups and writes on a concrete two-scope chain — the
child's shadowing binding wins, a miss falls through to the parent, an
unbound name resolves to `Null`, and a write to the child leaves the
parent untouched while becoming visible locally. -/
theorem C6_witness :
    innerScope.get_variable "x" = some (Value.Int 1)
    ∧ (ScopeT.child [] outerScope).get_variable "x" = outerScope.get_variable "x"
    ∧ resolveValue rootScope (Value.Variable "nope") = Value.Null
    ∧ (innerScope.set_variable "x" (Value.Int 2)).parentScope = innerScope.parentScope
    ∧ (innerScope.set_variable "x" (Value.Int 2)).get_variable "x"
        = some (Value.Int 2) :=
  ⟨C6_scope.1 [("x", Value.Int 1)] outerScope "x" (Value.Int 1) (by decide),
   C6_scope.2.1 [] outerScope "x" (by decide),
   C6_scope.2.2.2.1 rootScope "nope" (by decide),
   C6_scope.2.2.2.2.2.1 innerScope "x" (Value.Int 2),
   C6_scope.2.2.2.2.2.2 innerScope "x" (Value.Int 2)⟩

/-- C7: a garbage-collection sweep keeps exactly the pooled allocations
whose reference count exceeds 1 (so those held only by the pool itself,
count 1, are dropped); every allocation still referenced from a stack
slot or a scope binding survives; and the pool never grows across a
sweep. -/
theorem C7_gc_sweep :
    (∀ s : GCState, (gcSweep s).pool.length ≤ s.pool.length)
    ∧ (∀ s id, id ∈ s.pool → (id ∈ (gcSweep s).pool ↔ strongCount s id ≠ 1))
    ∧ (∀ s id, id ∈ s.pool →
        (some id ∈ s.stackRefs ∨ id ∈ s.scopeRefs.map Prod.snd) →
        id ∈ (gcSweep s).pool) := by
  refine ⟨?_, ?_, ?_⟩
  · intro s
    exact List.length_filter_le _ _
  · intro s id hmem
    have hpos : 0 < s.pool.count id := List.count_pos_iff.mpr hmem
    have hge : 1 ≤ strongCount s id := by
      unfold strongCount
      omega
    constructor
    · intro hin h1
      have hdec := List.of_mem_filter hin
      rw [h1] at hdec
      simp at hdec
    · intro hne
      apply List.mem_filter.mpr
      refine ⟨hmem, ?_⟩
      simp only [decide_eq_true_eq]
      omega
  · intro s id hmem href
    apply List.mem_filter.mpr
    refine ⟨hmem, ?_⟩
    simp only [decide_eq_true_eq]
    have hpos : 0 < s.pool.count id := List.count_pos_iff.mpr hmem
    cases href with
    | inl h =>
        have hc : 0 < (s.stackRefs.filterMap (fun x => x)).count id :=
          List.count_pos_iff.mpr (List.mem_filterMap.mpr ⟨some id, h, rfl⟩)
        unfold strongCount
        omega
    | inr h =>
        have hc : 0 < (s.scopeRefs.map Prod.snd).count id := List.count_pos_iff.mpr h
        unfold strongCount
        omega

/-- C7 witness: the sweep on a concrete census — allocation 0 (also in a
stack slot) and 2 (also in a scope binding) survive, the pool does not
grow, and membership after the sweep matches the count predicate. -/
theorem C7_witness :
    (gcSweep gcExample).pool.length ≤ gcExample.pool.length
    ∧ (0 ∈ (gcSweep gcExample).pool ↔ strongCount gcExample 0 ≠ 1)
    ∧ 0 ∈ (gcSweep gcExample).pool
    ∧ 2 ∈ (gcSweep gcExample).pool :=
  ⟨C7_gc_sweep.1 gcExample,
   C7_gc_sweep.2.1 gcExample 0 (by decide),
   C7_gc_sweep.2.2 gcExample 0 (by decide) (Or.inl (by decide)),
   C7_gc_sweep.2.2 gcExample 2 (by decide) (Or.inr (by decide))⟩

/-- C1 witness: the claim's named instance — `((x) => x + 1)(4)` returns
`Int(5)`. -/
theorem C1_witness : compileAndRun 50 (callAST 4) = .ok "Int(5)" :=
  C1_call_function.1 4 (by decide) (by decide)

/-- C9 witness: the unguarded division at a concrete operand pair. -/
theorem C9_witness :
    computeValues (Instruction.mk 0 1 .Divide) (Value.Int 3) (Value.Int 0)
      = .panic "attempt to divide by zero" :=
  C9_div_by_zero_panics.2 0 1 3
